import Mathlib

/-!
Shallow embedding of the yetii configuration engine (Rust sources under
`src/config/` and `src/main.rs`) together with proofs about its validation,
defaulting, environment-overlay and reload behaviour.

Rust machine integers (`u16`, `u32`) are modelled as `Nat`; every numeric
comparison the code performs stays inside the represented range, so no
wrap-around modelling is needed.  `Result<(), ConfigError>` becomes
`Except ConfigError Unit`, `Option<T>` becomes `Option T`,
`HashMap<String, T>` becomes an association list `List (String × T)`
(keys unique in serde-parsed maps; `get` is first-match lookup).
-/

namespace Yetii

/-- Rust `ConfigError` from `src/config/mod.rs`.  `IoError` carries the error
message as a string (the Rust value wraps `std::io::Error`). -/
inductive ConfigError where
  | InvalidDatabaseType (s : String)
  | InvalidSchedule (s : String)
  | MissingRequiredField (s : String)
  | InvalidTimeout (t : Option Nat)
  | IoError (s : String)
deriving DecidableEq, Repr

/-- The Rust `Option<u32>` order (`None < Some _`, `Some a < Some b ↔ a < b`)
used by the `>` comparisons in `ConnectionConfig::validate` and
`SecuritySettings::validate`. -/
def optNatGt : Option Nat → Option Nat → Bool
  | none, _ => false
  | some _, none => true
  | some a, some b => b < a

/-- Rust `DatabaseType` from `src/config/database.rs`. -/
inductive DatabaseType where
  | postgres
  | mysql
  | mssql
  | oracle
deriving DecidableEq, Repr

/-- Rust `DatabaseType::validate`: every constructor is accepted (the Rust
wildcard arm is unreachable). -/
def DatabaseType.validate : DatabaseType → Except ConfigError Unit
  | .postgres | .mysql | .mssql | .oracle => .ok ()

/-- Rust `AuthConfig` from `src/config/database.rs`. -/
structure AuthConfig where
  username : Option String
  password : Option String
deriving DecidableEq, Repr

/-- Rust `ConnectionConfig` from `src/config/connection_config.rs`. -/
structure ConnectionConfig where
  max_connections : Option Nat
  timeout_seconds : Option Nat
  retry_attempts : Option Nat
deriving DecidableEq, Repr

/-- Default value functions from `src/config/utils.rs`. -/
def default_version : Option String := some "1.0.0"

def default_environment : String := "development"

def default_max_connections : Option Nat := some 10

def default_timeout_seconds : Option Nat := some 30

def default_retry_attempts : Option Nat := some 3

def default_error_action : String := "stop"

def default_max_retries : Nat := 3

def default_timezone : String := "UTC"

def default_true : Bool := true

def default_false : Bool := false

def default_log_level : String := "info"

def default_log_format : String := "json"

def default_log_output : String := "console"

def default_request_format : String := "json"

def default_execution_mode : String := "sequential"

/-- Rust `impl Default for ConnectionConfig`. -/
def ConnectionConfig.default : ConnectionConfig :=
  { max_connections := default_max_connections
    timeout_seconds := default_timeout_seconds
    retry_attempts := default_retry_attempts }

/-- Rust `ConnectionConfig::validate` from `src/config/connection_config.rs`:
rejects `max_connections == Some(0)` or `> Some(1000)`, and
`timeout_seconds > Some(300)` (Rust `Option` ordering). -/
def ConnectionConfig.validate (c : ConnectionConfig) : Except ConfigError Unit :=
  if c.max_connections == some 0 || optNatGt c.max_connections (some 1000) then
    .error (.InvalidTimeout c.max_connections)
  else if optNatGt c.timeout_seconds (some 300) then
    .error (.InvalidTimeout c.timeout_seconds)
  else
    .ok ()

/-- Rust `DatabaseConfig` from `src/config/database.rs`; `port` is a `u16`. -/
structure DatabaseConfig where
  name : String
  db_type : DatabaseType
  connection_string : Option String
  host : String
  port : Nat
  database : String
  schema : Option String
  auth : AuthConfig
  pool : ConnectionConfig
deriving DecidableEq, Repr

/-- Rust `DatabaseConfig::validate`: name, host, database emptiness (no
trimming), database type, then the pool.  The port field is never
inspected. -/
def DatabaseConfig.validate (d : DatabaseConfig) : Except ConfigError Unit :=
  if d.name.isEmpty then .error (.MissingRequiredField "database.name")
  else if d.host.isEmpty then .error (.MissingRequiredField "database.host")
  else if d.database.isEmpty then .error (.MissingRequiredField "database.database")
  else if (match d.db_type.validate with | .error _ => true | .ok _ => false) then
    .error (.InvalidDatabaseType "database.type not supported")
  else
    d.pool.validate

/-- Rust `ErrorHandling` from `src/config/error_handling.rs`. -/
structure ErrorHandling where
  on_query_error : String
  on_transform_error : String
  on_endpoint_error : String
  max_retries : Nat
deriving DecidableEq, Repr

/-- Rust `impl Default for ErrorHandling`. -/
def ErrorHandling.default : ErrorHandling :=
  { on_query_error := default_error_action
    on_transform_error := default_error_action
    on_endpoint_error := default_error_action
    max_retries := default_max_retries }

/-- Rust `ErrorHandling::validate`: checks membership of `on_query_error` in
the valid-action set and `max_retries <= 10`.  The transform and endpoint
action fields are not inspected. -/
def ErrorHandling.validate (e : ErrorHandling) : Except ConfigError Unit :=
  if !(["stop", "log_and_continue", "retry"].contains e.on_query_error) then
    .error (.InvalidDatabaseType e.on_query_error)
  else if e.max_retries > 10 then
    .error (.InvalidTimeout (some e.max_retries))
  else
    .ok ()

/-- Rust `LogRotation` from `src/config/logging.rs`. -/
structure LogRotation where
  max_size_mb : Nat
  max_files : Nat
deriving DecidableEq, Repr

/-- Rust `Logging` from `src/config/logging.rs`. -/
structure Logging where
  level : String
  format : String
  output : String
  file_path : Option String
  rotation : Option LogRotation
deriving DecidableEq, Repr

/-- Rust `impl Default for Logging`. -/
def Logging.default : Logging :=
  { level := default_log_level
    format := default_log_format
    output := default_log_output
    file_path := none
    rotation := none }

/-- Rust `Logging::validate`: level then format membership checks. -/
def Logging.validate (l : Logging) : Except ConfigError Unit :=
  if !(["trace", "debug", "info", "warn", "error"].contains l.level) then
    .error (.InvalidDatabaseType l.level)
  else if !(["json", "plain", "structured"].contains l.format) then
    .error (.InvalidDatabaseType l.format)
  else
    .ok ()

/-- Rust `SecuritySettings` from `src/config/security_settings.rs`. -/
structure SecuritySettings where
  encrypt_config : Bool
  validate_ssl : Bool
  timeout_seconds : Option Nat
deriving DecidableEq, Repr

/-- Rust `impl Default for SecuritySettings`: note `validate_ssl := false`,
unlike the serde field default `default_true`. -/
def SecuritySettings.default : SecuritySettings :=
  { encrypt_config := false
    validate_ssl := false
    timeout_seconds := default_timeout_seconds }

/-- Rust `SecuritySettings::validate`: `timeout_seconds > Some(600)` is
rejected (Rust `Option` ordering). -/
def SecuritySettings.validate (s : SecuritySettings) : Except ConfigError Unit :=
  if optNatGt s.timeout_seconds (some 600) then
    .error (.InvalidTimeout s.timeout_seconds)
  else
    .ok ()

/-- Rust `GlobalSettings` from `src/config/global_settings.rs`. -/
structure GlobalSettings where
  environment : String
  error_handling : ErrorHandling
  logging : Logging
  security : SecuritySettings
deriving DecidableEq, Repr

/-- Rust `impl Default for GlobalSettings`. -/
def GlobalSettings.default : GlobalSettings :=
  { environment := default_environment
    error_handling := ErrorHandling.default
    logging := Logging.default
    security := SecuritySettings.default }

/-- Rust `GlobalSettings::validate`: environment membership, then error
handling, then logging, then security. -/
def GlobalSettings.validate (g : GlobalSettings) : Except ConfigError Unit :=
  if !(["development", "staging", "production"].contains g.environment) then
    .error (.InvalidDatabaseType g.environment)
  else match g.error_handling.validate with
    | .error e => .error e
    | .ok _ => match g.logging.validate with
      | .error e => .error e
      | .ok _ => g.security.validate

/-- Rust `ScheduleConfig` from `src/config/schedule_config.rs`. -/
structure ScheduleConfig where
  cron : String
  timezone : String
  enabled : Bool
deriving DecidableEq, Repr

/-- Accumulating worker for `splitWhitespace`. -/
def splitWsAux : List Char → List Char → List String
  | [], acc => if acc.isEmpty then [] else [⟨acc.reverse⟩]
  | c :: cs, acc =>
    if c.isWhitespace then
      (if acc.isEmpty then splitWsAux cs [] else ⟨acc.reverse⟩ :: splitWsAux cs [])
    else splitWsAux cs (c :: acc)

/-- Rust `str::split_whitespace`: the maximal whitespace-free tokens of
the string, in order. -/
def splitWhitespace (s : String) : List String := splitWsAux s.data []

/-- Rust `ScheduleConfig::validate`: the cron expression must tokenize into
exactly 5 or 6 whitespace-separated fields. -/
def ScheduleConfig.validate (s : ScheduleConfig) : Except ConfigError Unit :=
  if (splitWhitespace s.cron).length != 5 && (splitWhitespace s.cron).length != 6 then
    .error (.InvalidSchedule s.cron)
  else
    .ok ()

/-- Rust `QueryParameter` from `src/config/sql_query.rs`. -/
structure QueryParameter where
  param_type : String
  default : Option String
  source : Option String
deriving DecidableEq, Repr

/-- Rust `QueryValidation` from `src/config/sql_query.rs`. -/
structure QueryValidation where
  strict_mapping : Option Bool
  warn_unmapped_columns : Option Bool
  validate_filter_fields : Option Bool
deriving DecidableEq, Repr

/-- Rust `SqlQuery` from `src/config/sql_query.rs`. -/
structure SqlQuery where
  sql : String
  parameters : Option (List (String × QueryParameter))
  validation : Option QueryValidation
deriving DecidableEq, Repr

/-- Rust `str::trim`: remove leading and trailing whitespace. -/
def strTrim (s : String) : String :=
  ⟨((s.data.dropWhile Char.isWhitespace).reverse.dropWhile Char.isWhitespace).reverse⟩

/-- Rust `SqlQuery::validate`: the SQL text must be non-empty after trimming. -/
def SqlQuery.validate (q : SqlQuery) : Except ConfigError Unit :=
  if (strTrim q.sql).isEmpty then .error (.MissingRequiredField "query.sql")
  else .ok ()

/-- Rust `DataFilter` from `src/config/transform_config.rs`; the
`serde_json::Value` payload is modelled as an uninterpreted string. -/
structure DataFilter where
  field : String
  condition : String
  value : Option String
deriving DecidableEq, Repr

/-- Rust `DataConversion` from `src/config/transform_config.rs`. -/
structure DataConversion where
  from_type : String
  to_type : String
  format : Option String
deriving DecidableEq, Repr

/-- Rust `TransformConfig` from `src/config/transform_config.rs`. -/
structure TransformConfig where
  enabled : Bool
  mappings : Option (List (String × String))
  group_by : Option String
  filters : Option (List DataFilter)
  conversions : Option (List (String × DataConversion))
deriving DecidableEq, Repr

/-- Rust `impl Default for TransformConfig`. -/
def TransformConfig.default : TransformConfig :=
  { enabled := true, mappings := none, group_by := none
    filters := none, conversions := none }

/-- Rust `TransformConfig::validate` always succeeds (the body is a stub). -/
def TransformConfig.validate (_ : TransformConfig) : Except ConfigError Unit :=
  .ok ()

/-- Rust `EndpointAuth` from `src/config/endpoint_config.rs`. -/
inductive EndpointAuth where
  | bearer (token : String) (header_name : Option String)
  | apiKey (header_name : String) (token : String)
  | basic (username : String) (password : String)
  | oauth2 (client_id : String) (client_secret : String) (token_url : String)
deriving DecidableEq, Repr

/-- Rust `RequestConfig` from `src/config/request_config.rs`. -/
structure RequestConfig where
  format : String
  batch_size : Option Nat
  timeout_seconds : Option Nat
  retry_attempts : Option Nat
  retry_delay_seconds : Option Nat
  retry_backoff : Option String
deriving DecidableEq, Repr

/-- Rust `impl Default for RequestConfig`. -/
def RequestConfig.default : RequestConfig :=
  { format := default_request_format
    batch_size := some 100
    timeout_seconds := some 30
    retry_attempts := some 3
    retry_delay_seconds := some 1
    retry_backoff := some "exponential" }

/-- Rust `ResponseConfig` from `src/config/endpoint_config.rs`. -/
structure ResponseConfig where
  success_codes : List Nat
  handle_duplicates : String
deriving DecidableEq, Repr

/-- Rust `EndpointConfig` from `src/config/endpoint_config.rs`. -/
structure EndpointConfig where
  url : String
  method : String
  auth : Option EndpointAuth
  headers : Option (List (String × String))
  request : RequestConfig
  response : Option ResponseConfig
deriving DecidableEq, Repr

/-- Rust `EndpointConfig::validate`: url emptiness (no trimming), then method
membership. -/
def EndpointConfig.validate (e : EndpointConfig) : Except ConfigError Unit :=
  if e.url.isEmpty then .error (.MissingRequiredField "endpoint.url")
  else if !(["GET", "POST", "PUT", "PATCH", "DELETE", "WRITE"].contains e.method) then
    .error (.InvalidDatabaseType e.method)
  else
    .ok ()

/-- Rust `QueryConfig` from `src/config/query_config.rs`. -/
structure QueryConfig where
  name : String
  description : String
  enabled : Bool
  database : Option String
  schedule : Option ScheduleConfig
  query : SqlQuery
  transform : TransformConfig
  endpoint : EndpointConfig
deriving DecidableEq, Repr

/-- Rust `QueryConfig::validate`: name emptiness (no trimming), then the
schedule when present, then the SQL query, transform and endpoint. -/
def QueryConfig.validate (q : QueryConfig) : Except ConfigError Unit :=
  if q.name.isEmpty then .error (.MissingRequiredField "query.name")
  else match (match q.schedule with | some s => s.validate | none => .ok ()) with
    | .error e => .error e
    | .ok _ => match q.query.validate with
      | .error e => .error e
      | .ok _ => match q.transform.validate with
        | .error e => .error e
        | .ok _ => q.endpoint.validate

/-- Rust `StateManagement` from `src/config/execution_config.rs`. -/
structure StateManagement where
  enabled : Bool
  state_file : String
  backup_states : Nat
deriving DecidableEq, Repr

/-- Rust `SchedulerConfig` from `src/config/execution_config.rs`. -/
structure SchedulerConfig where
  enabled : Bool
  max_concurrent_jobs : Nat
  job_timeout_minutes : Nat
  missed_job_policy : String
deriving DecidableEq, Repr

/-- Rust `ExecutionConfig` from `src/config/execution_config.rs`. -/
structure ExecutionConfig where
  mode : String
  global_timeout_minutes : Option Nat
  state_management : Option StateManagement
  scheduler : Option SchedulerConfig
deriving DecidableEq, Repr

/-- Rust `impl Default for ExecutionConfig`. -/
def ExecutionConfig.default : ExecutionConfig :=
  { mode := default_execution_mode
    global_timeout_minutes := some 60
    state_management := none
    scheduler := none }

/-- Rust `ExecutionConfig::validate`: mode membership check only. -/
def ExecutionConfig.validate (e : ExecutionConfig) : Except ConfigError Unit :=
  if !(["parallel", "sequential"].contains e.mode) then
    .error (.InvalidDatabaseType e.mode)
  else
    .ok ()

/-- Rust `MetricsConfig` from `src/config/monitor_config.rs`. -/
structure MetricsConfig where
  enabled : Bool
  endpoint : String
  interval_seconds : Nat
deriving DecidableEq, Repr

/-- Rust `HealthCheckConfig` from `src/config/monitor_config.rs`. -/
structure HealthCheckConfig where
  enabled : Bool
  endpoint : String
  port : Nat
deriving DecidableEq, Repr

/-- Rust `NotificationChannel` from `src/config/monitor_config.rs`. -/
inductive NotificationChannel where
  | webhook (url : String)
  | email (smtp_host : String) (recipients : List String)
deriving DecidableEq, Repr

/-- Rust `NotificationSettings` from `src/config/monitor_config.rs`. -/
structure NotificationSettings where
  on_failure : Bool
  on_success : Bool
  channels : List NotificationChannel
deriving DecidableEq, Repr

/-- Rust `MonitoringConfig` from `src/config/monitor_config.rs`. -/
structure MonitoringConfig where
  enabled : Bool
  metrics : Option MetricsConfig
  health_check : Option HealthCheckConfig
  notifications : Option NotificationSettings
deriving DecidableEq, Repr

/-- Rust `EnvironmentOverride` from `src/config/environment_config.rs`. -/
structure EnvironmentOverride where
  global_settings : Option GlobalSettings
  databases : Option DatabaseConfig
  monitoring : Option MonitoringConfig
deriving DecidableEq, Repr

/-- Rust `YetiiConfig` from `src/config/yetii.rs`; the `environments` map is
an association list with first-match lookup. -/
structure YetiiConfig where
  version : Option String
  name : Option String
  description : Option String
  databases : DatabaseConfig
  global_settings : GlobalSettings
  queries : List QueryConfig
  execution : ExecutionConfig
  monitoring : Option MonitoringConfig
  environments : Option (List (String × EnvironmentOverride))
deriving DecidableEq, Repr

/-- The `for query in &self.queries { query.validate()?; }` loop in
`YetiiConfig::validate`. -/
def validateQueries : List QueryConfig → Except ConfigError Unit
  | [] => .ok ()
  | q :: qs => match q.validate with
    | .error e => .error e
    | .ok _ => validateQueries qs

/-- Rust `YetiiConfig::validate` from `src/config/yetii.rs`: version presence,
then databases, global settings, every query in order, and execution. -/
def YetiiConfig.validate (c : YetiiConfig) : Except ConfigError Unit :=
  if c.version.isNone then .error (.MissingRequiredField "version")
  else match c.databases.validate with
    | .error e => .error e
    | .ok _ => match c.global_settings.validate with
      | .error e => .error e
      | .ok _ => match validateQueries c.queries with
        | .error e => .error e
        | .ok _ => c.execution.validate

/-- Rust `HashMap::get` on the modelled association list. -/
def lookupEnv (m : List (String × EnvironmentOverride)) (k : String) :
    Option EnvironmentOverride :=
  (m.find? (fun p => p.1 == k)).map (fun p => p.2)

/-- Rust `YetiiConfig::for_environment` from `src/config/yetii.rs`: clone the
base, then wholesale-replace `global_settings`, `databases` and
`monitoring` with any value the named override supplies. -/
def YetiiConfig.for_environment (c : YetiiConfig) (env : String) : YetiiConfig :=
  match c.environments with
  | none => c
  | some overrides => match lookupEnv overrides env with
    | none => c
    | some ov =>
      { c with
        global_settings := match ov.global_settings with
          | some g => g
          | none => c.global_settings
        databases := match ov.databases with
          | some d => d
          | none => c.databases
        monitoring := match ov.monitoring with
          | some m => some m
          | none => c.monitoring }

/-!
Deserialization with serde defaulting.  For each struct that carries
`#[serde(default …)]` attributes, an `…Input` record models the raw
document fragment: a field annotated with a default becomes an `Option`
whose `none` means "key absent from the document" (the default function
then applies); for a Rust field that is itself `Option<T>` with a default
attribute, the input field is `Option (Option T)` — `some none` models an
explicit `null` in the document, which serde deserializes to `None`
without calling the default function.  Structs without serde defaults
deserialize structurally and need no input record.
-/

/-- Raw input for `ConnectionConfig` (all three fields have serde
defaults and are `Option<u32>`). -/
structure ConnectionConfigInput where
  max_connections : Option (Option Nat)
  timeout_seconds : Option (Option Nat)
  retry_attempts : Option (Option Nat)
deriving DecidableEq, Repr

/-- serde deserialization of `ConnectionConfig`. -/
def ConnectionConfigInput.deser (i : ConnectionConfigInput) : ConnectionConfig :=
  { max_connections := i.max_connections.getD default_max_connections
    timeout_seconds := i.timeout_seconds.getD default_timeout_seconds
    retry_attempts := i.retry_attempts.getD default_retry_attempts }

/-- Raw input for `ErrorHandling`. -/
structure ErrorHandlingInput where
  on_query_error : Option String
  on_transform_error : Option String
  on_endpoint_error : Option String
  max_retries : Option Nat
deriving DecidableEq, Repr

/-- serde deserialization of `ErrorHandling`. -/
def ErrorHandlingInput.deser (i : ErrorHandlingInput) : ErrorHandling :=
  { on_query_error := i.on_query_error.getD default_error_action
    on_transform_error := i.on_transform_error.getD default_error_action
    on_endpoint_error := i.on_endpoint_error.getD default_error_action
    max_retries := i.max_retries.getD default_max_retries }

/-- Raw input for `Logging` (`file_path` and `rotation` are plain
`Option` fields without default attributes). -/
structure LoggingInput where
  level : Option String
  format : Option String
  output : Option String
  file_path : Option String
  rotation : Option LogRotation
deriving DecidableEq, Repr

/-- serde deserialization of `Logging`. -/
def LoggingInput.deser (i : LoggingInput) : Logging :=
  { level := i.level.getD default_log_level
    format := i.format.getD default_log_format
    output := i.output.getD default_log_output
    file_path := i.file_path
    rotation := i.rotation }

/-- Raw input for `SecuritySettings`. -/
structure SecuritySettingsInput where
  encrypt_config : Option Bool
  validate_ssl : Option Bool
  timeout_seconds : Option (Option Nat)
deriving DecidableEq, Repr

/-- serde deserialization of `SecuritySettings`: an absent
`validate_ssl` key defaults to `default_true`. -/
def SecuritySettingsInput.deser (i : SecuritySettingsInput) : SecuritySettings :=
  { encrypt_config := i.encrypt_config.getD default_false
    validate_ssl := i.validate_ssl.getD default_true
    timeout_seconds := i.timeout_seconds.getD default_timeout_seconds }

/-- Raw input for `GlobalSettings`; the three sub-sections carry
`#[serde(default)]`, so an absent section falls back to the sub-struct
`Default` value while a present section deserializes field-wise. -/
structure GlobalSettingsInput where
  environment : Option String
  error_handling : Option ErrorHandlingInput
  logging : Option LoggingInput
  security : Option SecuritySettingsInput
deriving DecidableEq, Repr

/-- serde deserialization of `GlobalSettings`. -/
def GlobalSettingsInput.deser (i : GlobalSettingsInput) : GlobalSettings :=
  { environment := i.environment.getD default_environment
    error_handling := match i.error_handling with
      | none => ErrorHandling.default
      | some e => e.deser
    logging := match i.logging with
      | none => Logging.default
      | some l => l.deser
    security := match i.security with
      | none => SecuritySettings.default
      | some s => s.deser }

/-- Raw input for `DatabaseConfig` (only `pool` has a serde default). -/
structure DatabaseConfigInput where
  name : String
  db_type : DatabaseType
  connection_string : Option String
  host : String
  port : Nat
  database : String
  schema : Option String
  auth : AuthConfig
  pool : Option ConnectionConfigInput
deriving DecidableEq, Repr

/-- serde deserialization of `DatabaseConfig`. -/
def DatabaseConfigInput.deser (i : DatabaseConfigInput) : DatabaseConfig :=
  { name := i.name
    db_type := i.db_type
    connection_string := i.connection_string
    host := i.host
    port := i.port
    database := i.database
    schema := i.schema
    auth := i.auth
    pool := match i.pool with
      | none => ConnectionConfig.default
      | some p => p.deser }

/-- Raw input for `ScheduleConfig`. -/
structure ScheduleConfigInput where
  cron : String
  timezone : Option String
  enabled : Option Bool
deriving DecidableEq, Repr

/-- serde deserialization of `ScheduleConfig`: timezone defaults to
`"UTC"`, enabled defaults to `true`. -/
def ScheduleConfigInput.deser (i : ScheduleConfigInput) : ScheduleConfig :=
  { cron := i.cron
    timezone := i.timezone.getD default_timezone
    enabled := i.enabled.getD default_true }

/-- Raw input for `TransformConfig` (only `enabled` has a default). -/
structure TransformConfigInput where
  enabled : Option Bool
  mappings : Option (List (String × String))
  group_by : Option String
  filters : Option (List DataFilter)
  conversions : Option (List (String × DataConversion))
deriving DecidableEq, Repr

/-- serde deserialization of `TransformConfig`. -/
def TransformConfigInput.deser (i : TransformConfigInput) : TransformConfig :=
  { enabled := i.enabled.getD default_true
    mappings := i.mappings
    group_by := i.group_by
    filters := i.filters
    conversions := i.conversions }

/-- Raw input for `RequestConfig` (only `format` has a default). -/
structure RequestConfigInput where
  format : Option String
  batch_size : Option Nat
  timeout_seconds : Option Nat
  retry_attempts : Option Nat
  retry_delay_seconds : Option Nat
  retry_backoff : Option String
deriving DecidableEq, Repr

/-- serde deserialization of `RequestConfig`. -/
def RequestConfigInput.deser (i : RequestConfigInput) : RequestConfig :=
  { format := i.format.getD default_request_format
    batch_size := i.batch_size
    timeout_seconds := i.timeout_seconds
    retry_attempts := i.retry_attempts
    retry_delay_seconds := i.retry_delay_seconds
    retry_backoff := i.retry_backoff }

/-- Raw input for `EndpointConfig` (only `request` has a serde
default). -/
structure EndpointConfigInput where
  url : String
  method : String
  auth : Option EndpointAuth
  headers : Option (List (String × String))
  request : Option RequestConfigInput
  response : Option ResponseConfig
deriving DecidableEq, Repr

/-- serde deserialization of `EndpointConfig`. -/
def EndpointConfigInput.deser (i : EndpointConfigInput) : EndpointConfig :=
  { url := i.url
    method := i.method
    auth := i.auth
    headers := i.headers
    request := match i.request with
      | none => RequestConfig.default
      | some r => r.deser
    response := i.response }

/-- Raw input for `QueryConfig`. -/
structure QueryConfigInput where
  name : String
  description : String
  enabled : Option Bool
  database : Option String
  schedule : Option ScheduleConfigInput
  query : SqlQuery
  transform : Option TransformConfigInput
  endpoint : EndpointConfigInput
deriving DecidableEq, Repr

/-- serde deserialization of `QueryConfig`. -/
def QueryConfigInput.deser (i : QueryConfigInput) : QueryConfig :=
  { name := i.name
    description := i.description
    enabled := i.enabled.getD default_true
    database := i.database
    schedule := i.schedule.map ScheduleConfigInput.deser
    query := i.query
    transform := match i.transform with
      | none => TransformConfig.default
      | some t => t.deser
    endpoint := i.endpoint.deser }

/-- Raw input for `ExecutionConfig` (only `mode` has a serde default). -/
structure ExecutionConfigInput where
  mode : Option String
  global_timeout_minutes : Option Nat
  state_management : Option StateManagement
  scheduler : Option SchedulerConfig
deriving DecidableEq, Repr

/-- serde deserialization of `ExecutionConfig`. -/
def ExecutionConfigInput.deser (i : ExecutionConfigInput) : ExecutionConfig :=
  { mode := i.mode.getD default_execution_mode
    global_timeout_minutes := i.global_timeout_minutes
    state_management := i.state_management
    scheduler := i.scheduler }

/-- Raw input for `YetiiConfig`.  `version` is `Option<String>` with a
serde default, hence `Option (Option String)` here; `some none` is an
explicit `version: null` key.  Values inside the `environments` map carry
no document-level defaults relevant to any proof, so they are taken
already structured. -/
structure YetiiConfigInput where
  version : Option (Option String)
  name : Option String
  description : Option String
  databases : DatabaseConfigInput
  global_settings : Option GlobalSettingsInput
  queries : List QueryConfigInput
  execution : Option ExecutionConfigInput
  monitoring : Option MonitoringConfig
  environments : Option (List (String × EnvironmentOverride))
deriving DecidableEq, Repr

/-- serde deserialization of `YetiiConfig`: an absent `version` key is
filled by `default_version`; absent `global_settings` and `execution`
sections fall back to their `Default` values. -/
def YetiiConfigInput.deser (i : YetiiConfigInput) : YetiiConfig :=
  { version := i.version.getD default_version
    name := i.name
    description := i.description
    databases := i.databases.deser
    global_settings := match i.global_settings with
      | none => GlobalSettings.default
      | some g => g.deser
    queries := i.queries.map QueryConfigInput.deser
    execution := match i.execution with
      | none => ExecutionConfig.default
      | some e => e.deser
    monitoring := i.monitoring
    environments := i.environments }

/-!
Reload and file watching.  `reload_config` is called from
`watch_config_file` in `src/main.rs` but its definition is not among the
sources; it is modelled from the spec.  File I/O is abstracted by passing
the outcome of the load attempt (`YetiiConfig::from_file` followed by
validation) as an explicit `Except` argument, and the process-wide state
(the value inside the `CONFIG` lock) as an explicit `YetiiConfig`.
-/

/-- Modelled from the spec: `reload_config` (the `reload(path)` operation
of §4.5/§6, absent from the sources under `src/`) calls `load` and then
replaces the process-wide current value with the freshly loaded document;
"on failure it must report the error and leave the previous value as the
current value".  Returns the `Result` together with the state after the
call. -/
def reload_config (loadResult : Except ConfigError YetiiConfig)
    (current : YetiiConfig) : Except ConfigError Unit × YetiiConfig :=
  match loadResult with
  | .ok c => (.ok (), c)
  | .error e => (.error e, current)

/-- The file-system event kinds the watcher loop in `src/main.rs`
distinguishes: `notify::EventKind::Modify(_)` versus everything else. -/
inductive EventKind where
  | modify
  | other
deriving DecidableEq, Repr

/-- Outcome of the watcher thread handling one received event: either the
loop continues with the given process-wide state, or the thread panics
(terminating the watcher) leaving the given state behind. -/
inductive WatcherOutcome where
  | continues (st : YetiiConfig)
  | panics (st : YetiiConfig)
deriving DecidableEq, Repr

/-- One iteration of the event loop in `watch_config_file`
(`src/main.rs`): a `Modify` event triggers
`config::reload_config(&path).expect("Failed to reload config")` — the
`expect` panics the watcher thread when `reload_config` returns an
error; any other event kind is ignored. -/
def watch_step (loadResult : Except ConfigError YetiiConfig)
    (current : YetiiConfig) : EventKind → WatcherOutcome
  | .modify =>
    match reload_config loadResult current with
    | (.ok _, st) => .continues st
    | (.error _, st) => .panics st
  | .other => .continues current

/-!
Specification-order checklist for the validator.  `specCheckList` lists
the invariant checks of spec §3 in the deterministic order stated in
§4.2 — version presence, database spec, global settings (environment,
error handling, logging, security), each query in sequence order (name,
schedule, SQL, transform, endpoint), execution policy — each producing
`some` error when violated.  `validateSpecOrder` returns the first
violation, or success.
-/

/-- Turn a component validator result into an optional violation. -/
def toCheck : Except ConfigError Unit → Option ConfigError
  | .error e => some e
  | .ok _ => none

/-- The five per-query checks, in the order of the spec. -/
def queryChecks (q : QueryConfig) : List (Option ConfigError) :=
  [if q.name.isEmpty then some (.MissingRequiredField "query.name") else none,
   match q.schedule with
   | some s => toCheck s.validate
   | none => none,
   toCheck q.query.validate,
   toCheck q.transform.validate,
   toCheck q.endpoint.validate]

/-- The per-query checks of each query, in document sequence order. -/
def queriesChecks : List QueryConfig → List (Option ConfigError)
  | [] => []
  | q :: qs => queryChecks q ++ queriesChecks qs

/-- All invariant checks of the document, in the deterministic
order. -/
def specCheckList (c : YetiiConfig) : List (Option ConfigError) :=
  (if c.version.isNone then some (.MissingRequiredField "version") else none) ::
  toCheck c.databases.validate ::
  (if !(["development", "staging", "production"].contains c.global_settings.environment) then
     some (.InvalidDatabaseType c.global_settings.environment)
   else none) ::
  toCheck c.global_settings.error_handling.validate ::
  toCheck c.global_settings.logging.validate ::
  toCheck c.global_settings.security.validate ::
  (queriesChecks c.queries ++ [toCheck c.execution.validate])

/-- First violated invariant of an ordered checklist. -/
def firstViolation (l : List (Option ConfigError)) : Option ConfigError :=
  l.findSome? id

/-- Fail-fast validation as the spec words it: report the first violated
invariant in the fixed order of `specCheckList`, not an aggregate. -/
def validateSpecOrder (c : YetiiConfig) : Except ConfigError Unit :=
  match firstViolation (specCheckList c) with
  | some e => .error e
  | none => .ok ()

/-- The two nested `if let` lookups at the top of
`YetiiConfig::for_environment`: the override named `env`, when the
document has an `environments` map containing it. -/
def envLookup (c : YetiiConfig) (env : String) : Option EnvironmentOverride :=
  match c.environments with
  | none => none
  | some m => lookupEnv m env

/-!
Minimal documents: raw inputs in which only the required fields are
populated and every optional key is absent, as §8 of the spec describes
("only required fields populated").
-/

/-- The required fields of a database section. -/
structure MinimalDb where
  name : String
  db_type : DatabaseType
  host : String
  port : Nat
  database : String
deriving DecidableEq, Repr

/-- The required fields of one query entry; `cron` is `some` when the
optional schedule section is present (with only its required `cron`
populated). -/
structure MinimalQuery where
  name : String
  description : String
  sql : String
  url : String
  method : String
  cron : Option String
deriving DecidableEq, Repr

/-- Raw query input with every optional key absent. -/
def MinimalQuery.toInput (q : MinimalQuery) : QueryConfigInput :=
  { name := q.name
    description := q.description
    enabled := none
    database := none
    schedule := q.cron.map (fun c => { cron := c, timezone := none, enabled := none })
    query := { sql := q.sql, parameters := none, validation := none }
    transform := none
    endpoint := { url := q.url, method := q.method, auth := none, headers := none,
                  request := none, response := none } }

/-- Raw document input with every optional key absent. -/
def minimalInput (db : MinimalDb) (qs : List MinimalQuery) : YetiiConfigInput :=
  { version := none
    name := none
    description := none
    databases := { name := db.name, db_type := db.db_type, connection_string := none,
                   host := db.host, port := db.port, database := db.database,
                   schema := none, auth := { username := none, password := none },
                   pool := none }
    global_settings := none
    queries := qs.map MinimalQuery.toInput
    execution := none
    monitoring := none
    environments := none }

/-! Concrete example documents used as counterexamples and witnesses. -/

/-- An example database section that passes every check the validator
performs. -/
def exDb : DatabaseConfig :=
  { name := "erp", db_type := .postgres, connection_string := none, host := "localhost"
    port := 5432, database := "main", schema := none
    auth := { username := none, password := none }, pool := ConnectionConfig.default }

/-- An example endpoint that passes validation. -/
def exEndpoint : EndpointConfig :=
  { url := "https://example.com/api", method := "POST", auth := none, headers := none
    request := RequestConfig.default, response := none }

/-- An example query that passes validation. -/
def exQuery : QueryConfig :=
  { name := "orders", description := "", enabled := true, database := none
    schedule := none, query := { sql := "SELECT 1", parameters := none, validation := none }
    transform := TransformConfig.default, endpoint := exEndpoint }

/-- An example document that passes validation. -/
def exConfig : YetiiConfig :=
  { version := some "1.0.0", name := none, description := none, databases := exDb
    global_settings := GlobalSettings.default, queries := [exQuery]
    execution := ExecutionConfig.default, monitoring := none, environments := none }

/-- Rust `exConfig` with `database.port = 0`. -/
def exConfigPort0 : YetiiConfig :=
  { exConfig with databases := { exDb with port := 0 } }

/-- Rust `exConfig` with a whitespace-only `database.name`. -/
def exConfigWsName : YetiiConfig :=
  { exConfig with databases := { exDb with name := " " } }

/-- Error-handling settings whose `on_transform_error` lies outside the
valid-action set while `on_query_error` and `max_retries` are fine. -/
def exBadTransformAction : ErrorHandling :=
  { on_query_error := "stop", on_transform_error := "explode"
    on_endpoint_error := "stop", max_retries := 3 }

/-- Pool settings with `timeout_seconds = 0`. -/
def exPoolTimeoutZero : ConnectionConfig :=
  { max_connections := some 10, timeout_seconds := some 0, retry_attempts := some 3 }

/-- Global settings distinct from the defaults, used as an override
payload. -/
def exProdSettings : GlobalSettings :=
  { GlobalSettings.default with environment := "production" }

/-- An override for environment `"prod"` that only sets
`global_settings`. -/
def exOverride : EnvironmentOverride :=
  { global_settings := some exProdSettings, databases := none, monitoring := none }

/-- Rust `exConfig` extended with an overrides map for `"prod"`. -/
def exConfigWithEnvs : YetiiConfig :=
  { exConfig with environments := some [("prod", exOverride)] }

/-- An example minimal database section. -/
def exMinDb : MinimalDb :=
  { name := "erp", db_type := .postgres, host := "localhost", port := 5432, database := "main" }

/-- An example minimal query with a schedule whose only populated field
is the cron expression. -/
def exMinQuery : MinimalQuery :=
  { name := "orders", description := "sync", sql := "SELECT 1"
    url := "https://example.com/api", method := "POST", cron := some "0 0 * * *" }

/-- A raw document carrying an explicit `version: null` key, otherwise
minimal. -/
def exInputVersionNull : YetiiConfigInput :=
  { minimalInput exMinDb [] with version := some none }

/-- A raw `global_settings` section whose `security` key is absent. -/
def exGsInputNoSecurity : GlobalSettingsInput :=
  { environment := none, error_handling := none, logging := none, security := none }

/-- A raw `security` section whose `validate_ssl` key is absent. -/
def exSecInputNoSsl : SecuritySettingsInput :=
  { encrypt_config := none, validate_ssl := none, timeout_seconds := none }

/-! Helper lemmas relating `firstViolation` to the sequenced component
validators. -/

theorem fv_cons_some (e : ConfigError) (l : List (Option ConfigError)) :
    firstViolation (some e :: l) = some e := rfl

theorem fv_cons_none (l : List (Option ConfigError)) :
    firstViolation (none :: l) = firstViolation l := rfl

theorem fv_cons_toCheck (r : Except ConfigError Unit) (l : List (Option ConfigError)) :
    firstViolation (toCheck r :: l) =
      match r with
      | .error e => some e
      | .ok _ => firstViolation l := by
  cases r with
  | error e => rfl
  | ok u => cases u; rfl

/-- The schedule entry of `queryChecks` as a `toCheck` of the
corresponding branch of `QueryConfig.validate`. -/
theorem sched_check_eq (q : QueryConfig) :
    (match q.schedule with
     | some s => toCheck s.validate
     | none => none) =
    toCheck (match q.schedule with
             | some s => s.validate
             | none => .ok ()) := by
  cases q.schedule <;> rfl

theorem fv_queryChecks (q : QueryConfig) (l : List (Option ConfigError)) :
    firstViolation (queryChecks q ++ l) =
      match q.validate with
      | .error e => some e
      | .ok _ => firstViolation l := by
  unfold queryChecks QueryConfig.validate
  rw [sched_check_eq]
  cases hn : q.name.isEmpty with
  | true => simp [hn, fv_cons_some]
  | false =>
    simp only [hn, Bool.false_eq_true, if_false, List.cons_append, List.nil_append,
      fv_cons_none]
    rw [fv_cons_toCheck]
    cases hs : (match q.schedule with
                | some s => s.validate
                | none => (.ok () : Except ConfigError Unit)) with
    | error e => rfl
    | ok u =>
      cases u
      rw [fv_cons_toCheck]
      cases hq : q.query.validate with
      | error e => rfl
      | ok u1 =>
        cases u1
        rw [fv_cons_toCheck, fv_cons_toCheck]
        cases he : q.endpoint.validate with
        | error e => rfl
        | ok u3 => cases u3; rfl

theorem fv_queriesChecks (qs : List QueryConfig) (l : List (Option ConfigError)) :
    firstViolation (queriesChecks qs ++ l) =
      match validateQueries qs with
      | .error e => some e
      | .ok _ => firstViolation l := by
  induction qs with
  | nil => rfl
  | cons q qs ih =>
    unfold queriesChecks validateQueries
    rw [List.append_assoc, fv_queryChecks]
    cases hq : q.validate with
    | error e => rfl
    | ok u => cases u; exact ih

theorem fv_global (g : GlobalSettings) (l : List (Option ConfigError)) :
    firstViolation
      ((if !(["development", "staging", "production"].contains g.environment) then
          some (ConfigError.InvalidDatabaseType g.environment)
        else none) ::
        toCheck g.error_handling.validate :: toCheck g.logging.validate ::
        toCheck g.security.validate :: l) =
      match g.validate with
      | .error e => some e
      | .ok _ => firstViolation l := by
  unfold GlobalSettings.validate
  cases henv : (["development", "staging", "production"].contains g.environment) with
  | false => simp [henv, fv_cons_some]
  | true =>
    simp only [henv, Bool.not_true, Bool.false_eq_true, if_false, fv_cons_none]
    rw [fv_cons_toCheck]
    cases heh : g.error_handling.validate with
    | error e => rfl
    | ok u =>
      cases u
      rw [fv_cons_toCheck]
      cases hlog : g.logging.validate with
      | error e => rfl
      | ok u1 =>
        cases u1
        rw [fv_cons_toCheck]

/-- The first violation of the ordered checklist is exactly what the
fail-fast validator of the implementation reports. -/
theorem fv_specCheckList (c : YetiiConfig) :
    firstViolation (specCheckList c) = toCheck c.validate := by
  unfold specCheckList YetiiConfig.validate
  cases hv : c.version.isNone with
  | true => simp [hv, fv_cons_some, toCheck]
  | false =>
    simp only [hv, Bool.false_eq_true, if_false, fv_cons_none]
    rw [fv_cons_toCheck]
    cases hdb : c.databases.validate with
    | error e => rfl
    | ok u =>
      cases u
      rw [fv_global]
      cases hg : c.global_settings.validate with
      | error e => rfl
      | ok u1 =>
        cases u1
        rw [fv_queriesChecks]
        cases hq : validateQueries c.queries with
        | error e => rfl
        | ok u2 =>
          cases u2
          rw [fv_cons_toCheck]
          cases he : c.execution.validate with
          | error e => rfl
          | ok u3 => cases u3; rfl

/-- C1: for every configuration document, `YetiiConfig::validate`
returns success or else the error of the first violated invariant in the
fixed deterministic order — version presence, then the database spec,
then global settings (environment, then error handling, then logging,
then security), then each query in sequence order (name, then schedule,
then SQL, then transform, then endpoint), then the execution policy —
stopping at the first violation rather than aggregating a report. -/
theorem validate_reports_first_violation_in_spec_order (c : YetiiConfig) :
    c.validate = validateSpecOrder c := by
  unfold validateSpecOrder
  rw [fv_specCheckList]
  cases c.validate with
  | error e => rfl
  | ok u => cases u; rfl

/-- C2 (code bug): when a `Modify` event arrives and the load attempt
fails, the `expect` call in the watcher loop panics, terminating the watcher
thread — the error is not merely reported.  The process-wide value is
left unchanged (`st` is preserved), but the watcher activity does
terminate, contrary to the claim. -/
theorem watcher_thread_panics_on_failed_reload (e : ConfigError) (st : YetiiConfig) :
    watch_step (.error e) st .modify = .panics st := rfl

/-- C3 counterexample: a concrete document whose `database.port` is `0`
passes validation — `load` therefore does not fail with an out-of-range
error naming `database.port`. -/
theorem port_zero_document_validates :
    exConfigPort0.databases.port = 0 ∧ exConfigPort0.validate = .ok () :=
  ⟨rfl, rfl⟩

/-- Rust `DatabaseType::validate` accepts every constructor. -/
theorem dbtype_always_ok (t : DatabaseType) : t.validate = .ok () := by
  cases t <;> rfl

/-- C3 amended: validation never inspects `database.port` — replacing the
port by any value leaves the result of `YetiiConfig::validate` unchanged
(values above 65535 are unrepresentable in the `u16` field and are
rejected during deserialization as structural errors, not by the
validator). -/
theorem validate_ignores_database_port (c : YetiiConfig) (p : Nat) :
    YetiiConfig.validate { c with databases := { c.databases with port := p } } =
    c.validate := rfl

/-- C4 counterexample: a concrete document whose `database.name` is the
single space `" "` — empty after trimming — passes validation, because
the emptiness checks for `database.name` do not trim. -/
theorem whitespace_database_name_validates :
    (strTrim exConfigWsName.databases.name).isEmpty = true ∧
    exConfigWsName.validate = .ok () :=
  ⟨rfl, rfl⟩

/-- C4 amended: of the required string fields, only the `sql` of a query is
trimmed before its emptiness check; `database.name`, `database.host`,
`database.database`, the `name` of a query and the `url` of an endpoint
are tested for literal emptiness (so whitespace-only values pass), and
the endpoint check also requires a valid method.  Conversely, documents
where these fields are literally non-empty (and `sql` is non-empty after
trimming) pass these checks; the final conjunct characterizes the whole
per-query validator, whose name test is the literal `is_empty`. -/
theorem required_string_checks_characterized
    (d : DatabaseConfig) (s : SqlQuery) (e : EndpointConfig) (q : QueryConfig) :
    (d.validate = .ok () ↔
      (d.name.isEmpty = false ∧ d.host.isEmpty = false ∧
       d.database.isEmpty = false ∧ d.pool.validate = .ok ())) ∧
    (s.validate = .ok () ↔ (strTrim s.sql).isEmpty = false) ∧
    (e.validate = .ok () ↔
      (e.url.isEmpty = false ∧
       ["GET", "POST", "PUT", "PATCH", "DELETE", "WRITE"].contains e.method = true)) ∧
    (q.validate = .ok () ↔
      (q.name.isEmpty = false ∧
       (∀ sc, q.schedule = some sc → sc.validate = .ok ()) ∧
       q.query.validate = .ok () ∧ q.endpoint.validate = .ok ())) := by
  refine ⟨?_, ?_, ?_, ?_⟩
  · unfold DatabaseConfig.validate
    rw [dbtype_always_ok]
    cases h1 : d.name.isEmpty <;> cases h2 : d.host.isEmpty <;>
      cases h3 : d.database.isEmpty <;> simp [h1, h2, h3]
  · unfold SqlQuery.validate
    cases h : (strTrim s.sql).isEmpty <;> simp [h]
  · unfold EndpointConfig.validate
    cases h1 : e.url.isEmpty <;>
      cases h2 : ["GET", "POST", "PUT", "PATCH", "DELETE", "WRITE"].contains e.method <;>
      simp [h1, h2]
  · unfold QueryConfig.validate
    cases h1 : q.name.isEmpty with
    | true => simp [h1]
    | false =>
      cases hsch : q.schedule with
      | none =>
        cases h3 : q.query.validate with
        | error e1 => simp [h1, hsch, h3]
        | ok u1 =>
          cases u1
          cases h4 : q.endpoint.validate with
          | error e1 => simp [h1, hsch, h3, h4, TransformConfig.validate]
          | ok u2 => cases u2; simp [h1, hsch, h3, h4, TransformConfig.validate]
      | some sc =>
        cases h2 : sc.validate with
        | error e1 => simp [h1, hsch, h2]
        | ok u =>
          cases u
          cases h3 : q.query.validate with
          | error e1 => simp [h1, hsch, h2, h3]
          | ok u1 =>
            cases u1
            cases h4 : q.endpoint.validate with
            | error e1 => simp [h1, hsch, h2, h3, h4, TransformConfig.validate]
            | ok u2 => cases u2; simp [h1, hsch, h2, h3, h4, TransformConfig.validate]

/-- C5 counterexample: error-handling settings whose
`on_transform_error` is `"explode"` — outside the valid-action set —
are accepted, because only `on_query_error` is checked. -/
theorem invalid_transform_action_validates :
    ["stop", "log_and_continue", "retry"].contains
      exBadTransformAction.on_transform_error = false ∧
    exBadTransformAction.validate = .ok () :=
  ⟨rfl, rfl⟩

/-- C5 amended: `ErrorHandling::validate` accepts exactly when
`on_query_error` is one of stop, log_and_continue, retry and
`max_retries ≤ 10`; `on_transform_error` and `on_endpoint_error` are
never inspected. -/
theorem error_handling_validate_iff (eh : ErrorHandling) :
    eh.validate = .ok () ↔
      (["stop", "log_and_continue", "retry"].contains eh.on_query_error = true ∧
       eh.max_retries ≤ 10) := by
  unfold ErrorHandling.validate
  cases h1 : ["stop", "log_and_continue", "retry"].contains eh.on_query_error <;>
    by_cases h2 : eh.max_retries > 10 <;>
    simp [h1, h2, Nat.not_lt] <;> omega

/-- C6 counterexample: pool settings with `timeout_seconds = 0` are
accepted — the validator only rejects timeouts above 300, it has no
lower bound. -/
theorem pool_timeout_zero_validates :
    exPoolTimeoutZero.timeout_seconds = some 0 ∧
    exPoolTimeoutZero.validate = .ok () :=
  ⟨rfl, rfl⟩

/-- C6 amended: `ConnectionConfig::validate` rejects exactly when
`max_connections` is present and outside (0, 1000], or when
`timeout_seconds` is present and above 300 — so `timeout_seconds = 0` is
accepted, absent fields are accepted, and `max_connections = 1000` with
`timeout_seconds = 300` is accepted. -/
theorem connection_validate_iff (cc : ConnectionConfig) :
    cc.validate = .ok () ↔
      ((∀ m, cc.max_connections = some m → 0 < m ∧ m ≤ 1000) ∧
       (∀ t, cc.timeout_seconds = some t → t ≤ 300)) := by
  unfold ConnectionConfig.validate
  cases hm : cc.max_connections with
  | none =>
    cases ht : cc.timeout_seconds with
    | none => simp [optNatGt]
    | some t =>
      by_cases h3 : 300 < t <;>
        simp [optNatGt, h3] <;> omega
  | some m =>
    cases ht : cc.timeout_seconds with
    | none =>
      by_cases h1 : m = 0 <;> by_cases h2 : 1000 < m <;>
        simp [optNatGt, h1, h2] <;> omega
    | some t =>
      by_cases h1 : m = 0 <;> by_cases h2 : 1000 < m <;> by_cases h3 : 300 < t <;>
        simp [optNatGt, h1, h2, h3] <;> omega

/-- C9 counterexample: a raw document carrying an explicit
`version: null` key deserializes to a document whose `version` is `None`,
and validation then does return `MissingRequiredField("version")` — the
branch is reachable from a parsed document. -/
theorem version_null_reaches_missing_field :
    exInputVersionNull.version = some none ∧
    exInputVersionNull.deser.version = none ∧
    exInputVersionNull.deser.validate = .error (.MissingRequiredField "version") :=
  ⟨rfl, rfl, rfl⟩

/-- C9 amended: for every deserialized document whose raw `version` key
is not an explicit `null`, the field default fills `"1.0.0"` when the key
is absent, so `version` is `Some` and the
`MissingRequiredField("version")` branch cannot fire; the branch is
reachable only through an explicit `version: null`. -/
theorem deser_version_some_unless_null (i : YetiiConfigInput)
    (h : i.version ≠ some none) : i.deser.version ≠ none := by
  unfold YetiiConfigInput.deser
  cases hv : i.version with
  | none => simp [default_version]
  | some v =>
    cases v with
    | none => exact absurd hv h
    | some s => simp

/-- Witness for the amended C9 statement at a concrete input. -/
theorem deser_version_some_unless_null_witness :
    (minimalInput exMinDb []).deser.version ≠ none :=
  deser_version_some_unless_null (minimalInput exMinDb []) (by decide)

/-- C10: the defaulted value of `security.validate_ssl` depends on how it
is absent: a `Default`-constructed `GlobalSettings` (entire
`global_settings` section absent) and a present `global_settings` section
without a `security` key both yield `validate_ssl = false`, while a
present `security` section without the `validate_ssl` key yields
`validate_ssl = true` via the serde field default. -/
theorem validate_ssl_default_depends_on_absence_shape :
    GlobalSettings.default.security.validate_ssl = false ∧
    (∀ gi : GlobalSettingsInput, gi.security = none →
      gi.deser.security.validate_ssl = false) ∧
    (∀ si : SecuritySettingsInput, si.validate_ssl = none →
      si.deser.validate_ssl = true) := by
  refine ⟨rfl, ?_, ?_⟩
  · intro gi h
    unfold GlobalSettingsInput.deser
    rw [h]
    rfl
  · intro si h
    unfold SecuritySettingsInput.deser
    rw [h]
    rfl

/-- Witness for C10 at concrete inputs: a `global_settings` section with
no `security` key gives `validate_ssl = false`, a `security` section with
no `validate_ssl` key gives `true`. -/
theorem validate_ssl_default_witness :
    exGsInputNoSecurity.deser.security.validate_ssl = false ∧
    exSecInputNoSsl.deser.validate_ssl = true :=
  ⟨validate_ssl_default_depends_on_absence_shape.2.1 exGsInputNoSecurity rfl,
   validate_ssl_default_depends_on_absence_shape.2.2 exSecInputNoSsl rfl⟩

/-- Rust `for_environment` expressed through `envLookup`, by case analysis on
the two nested `if let`s. -/
theorem for_environment_eq (c : YetiiConfig) (env : String) :
    c.for_environment env =
      match envLookup c env with
      | none => c
      | some ov =>
        { c with
          global_settings := match ov.global_settings with
            | some g => g
            | none => c.global_settings
          databases := match ov.databases with
            | some d => d
            | none => c.databases
          monitoring := match ov.monitoring with
            | some m => some m
            | none => c.monitoring } := by
  unfold YetiiConfig.for_environment envLookup
  cases c.environments with
  | none => rfl
  | some m =>
    cases lookupEnv m env with
    | none => rfl
    | some ov => rfl

/-- C7: resolving an environment whose name is absent from the
overrides mapping (or when there is no mapping) returns the base
document unchanged; resolving a present override replaces
`global_settings`, `databases` and `monitoring` wholesale exactly when
the override supplies a value, and every other top-level field — version,
name, description, queries, execution, environments — is that of the base.
(The base itself is a value and is never mutated: `for_environment`
builds a new document.) -/
theorem for_environment_overlay (c : YetiiConfig) (env : String) :
    (envLookup c env = none → c.for_environment env = c) ∧
    (∀ ov, envLookup c env = some ov →
      (c.for_environment env).global_settings = ov.global_settings.getD c.global_settings ∧
      (c.for_environment env).databases = ov.databases.getD c.databases ∧
      (c.for_environment env).monitoring =
        (match ov.monitoring with
         | some m => some m
         | none => c.monitoring) ∧
      (c.for_environment env).version = c.version ∧
      (c.for_environment env).name = c.name ∧
      (c.for_environment env).description = c.description ∧
      (c.for_environment env).queries = c.queries ∧
      (c.for_environment env).execution = c.execution ∧
      (c.for_environment env).environments = c.environments) := by
  constructor
  · intro h
    rw [for_environment_eq, h]
  · intro ov h
    rw [for_environment_eq, h]
    refine ⟨?_, ?_, rfl, rfl, rfl, rfl, rfl, rfl, rfl⟩
    · show (match ov.global_settings with
            | some g => g
            | none => c.global_settings) = ov.global_settings.getD c.global_settings
      cases ov.global_settings <;> rfl
    · show (match ov.databases with
            | some d => d
            | none => c.databases) = ov.databases.getD c.databases
      cases ov.databases <;> rfl

/-- Witness for C7 at concrete inputs: resolving `"prod"` on a document
whose override only sets `global_settings` replaces them and keeps the
databases of the base; resolving the unknown `"staging2"` returns the base. -/
theorem for_environment_overlay_witness :
    (exConfigWithEnvs.for_environment "prod").global_settings = exProdSettings ∧
    (exConfigWithEnvs.for_environment "prod").databases = exConfigWithEnvs.databases ∧
    (exConfigWithEnvs.for_environment "prod").monitoring = exConfigWithEnvs.monitoring ∧
    exConfigWithEnvs.for_environment "staging2" = exConfigWithEnvs := by
  have h := (for_environment_overlay exConfigWithEnvs "prod").2 exOverride rfl
  refine ⟨h.1.trans rfl, h.2.1.trans rfl, h.2.2.1.trans rfl, ?_⟩
  exact (for_environment_overlay exConfigWithEnvs "staging2").1 rfl

/-- A minimal query entry deserializes to a query that passes validation
whenever its required fields satisfy the checks of the validator. -/
theorem minimal_query_validate (q : MinimalQuery)
    (h1 : q.name.isEmpty = false) (h2 : (strTrim q.sql).isEmpty = false)
    (h3 : q.url.isEmpty = false)
    (h4 : ["GET", "POST", "PUT", "PATCH", "DELETE", "WRITE"].contains q.method = true)
    (h5 : ∀ cr, q.cron = some cr →
      (splitWhitespace cr).length = 5 ∨ (splitWhitespace cr).length = 6) :
    (QueryConfigInput.deser (MinimalQuery.toInput q)).validate = .ok () := by
  unfold QueryConfig.validate QueryConfigInput.deser MinimalQuery.toInput
  simp at h4
  cases hc : q.cron with
  | none =>
    simp [h1, h2, h3, hc, SqlQuery.validate, TransformConfig.validate,
      EndpointConfig.validate, EndpointConfigInput.deser] <;> tauto
  | some cr =>
    rcases h5 cr hc with h6 | h6 <;>
      simp [h1, h2, h3, hc, h6, SqlQuery.validate, TransformConfig.validate,
        EndpointConfig.validate, EndpointConfigInput.deser, ScheduleConfig.validate,
        ScheduleConfigInput.deser] <;> tauto

/-- The query list of a minimal document passes the query
loop of the validator whenever the required fields of each entry are valid. -/
theorem minimal_queries_validate (qs : List MinimalQuery)
    (hq : ∀ q ∈ qs, q.name.isEmpty = false ∧ (strTrim q.sql).isEmpty = false ∧
      q.url.isEmpty = false ∧
      ["GET", "POST", "PUT", "PATCH", "DELETE", "WRITE"].contains q.method = true ∧
      (∀ cr, q.cron = some cr →
        (splitWhitespace cr).length = 5 ∨ (splitWhitespace cr).length = 6)) :
    validateQueries (qs.map (fun q => QueryConfigInput.deser (MinimalQuery.toInput q))) =
      .ok () := by
  induction qs with
  | nil => rfl
  | cons q t ih =>
    have h1 := hq q (List.mem_cons_self q t)
    rw [List.map_cons]
    unfold validateQueries
    rw [minimal_query_validate q h1.1 h1.2.1 h1.2.2.1 h1.2.2.2.1 h1.2.2.2.2]
    exact ih (fun q2 hm => hq q2 (List.mem_cons_of_mem q hm))

/-- C8: a minimal document — only required fields populated — whose
required fields satisfy the checks of the validator loads successfully, and
every optional-with-default field of the result equals its documented
default: `execution.mode = "sequential"`, `logging.level = "info"`,
pool `timeout_seconds = 30` and `retry_attempts = 3`, a present
omitted schedule `timezone` is `"UTC"`, and the boolean `enabled`
flags (query, transform, schedule) are `true`. -/
theorem minimal_document_defaults (db : MinimalDb) (qs : List MinimalQuery)
    (hname : db.name.isEmpty = false) (hhost : db.host.isEmpty = false)
    (hdbase : db.database.isEmpty = false)
    (hq : ∀ q ∈ qs, q.name.isEmpty = false ∧ (strTrim q.sql).isEmpty = false ∧
      q.url.isEmpty = false ∧
      ["GET", "POST", "PUT", "PATCH", "DELETE", "WRITE"].contains q.method = true ∧
      (∀ cr, q.cron = some cr →
        (splitWhitespace cr).length = 5 ∨ (splitWhitespace cr).length = 6)) :
    (minimalInput db qs).deser.validate = .ok () ∧
    (minimalInput db qs).deser.execution.mode = "sequential" ∧
    (minimalInput db qs).deser.global_settings.logging.level = "info" ∧
    (minimalInput db qs).deser.databases.pool.timeout_seconds = some 30 ∧
    (minimalInput db qs).deser.databases.pool.retry_attempts = some 3 ∧
    (∀ q ∈ (minimalInput db qs).deser.queries,
      q.enabled = true ∧ q.transform.enabled = true ∧
      ∀ s, q.schedule = some s → (s.timezone = "UTC" ∧ s.enabled = true)) := by
  refine ⟨?_, rfl, rfl, rfl, rfl, ?_⟩
  · have hdbv : (minimalInput db qs).deser.databases.validate = .ok () := by
      show DatabaseConfig.validate _ = _
      unfold DatabaseConfig.validate
      simp [minimalInput, YetiiConfigInput.deser, DatabaseConfigInput.deser,
        hname, hhost, hdbase, dbtype_always_ok, ConnectionConfig.default,
        ConnectionConfig.validate, optNatGt, default_max_connections,
        default_timeout_seconds, default_retry_attempts]
    have hqv : validateQueries ((minimalInput db qs).deser.queries) = .ok () := by
      show validateQueries ((qs.map MinimalQuery.toInput).map QueryConfigInput.deser) = _
      rw [List.map_map]
      exact minimal_queries_validate qs hq
    have hgv : (minimalInput db qs).deser.global_settings.validate = .ok () := rfl
    have hev : (minimalInput db qs).deser.execution.validate = .ok () := rfl
    unfold YetiiConfig.validate
    rw [hdbv, hgv, hqv, hev]
    rfl
  · intro q hmem
    have hqs : (minimalInput db qs).deser.queries =
        qs.map (fun q0 => QueryConfigInput.deser (MinimalQuery.toInput q0)) := by
      show (qs.map MinimalQuery.toInput).map QueryConfigInput.deser = _
      rw [List.map_map]
      rfl
    rw [hqs] at hmem
    obtain ⟨q0, hq0, rfl⟩ := List.mem_map.mp hmem
    refine ⟨rfl, rfl, ?_⟩
    intro s hs
    have hsch : (QueryConfigInput.deser (MinimalQuery.toInput q0)).schedule =
        q0.cron.map (fun c => { cron := c, timezone := "UTC", enabled := true }) := by
      show (q0.cron.map (fun c =>
          ({ cron := c, timezone := none, enabled := none } : ScheduleConfigInput))).map
          ScheduleConfigInput.deser = _
      cases q0.cron <;> rfl
    rw [hsch] at hs
    cases hc : q0.cron with
    | none => rw [hc] at hs; cases hs
    | some cr =>
      rw [hc] at hs
      cases hs
      exact ⟨rfl, rfl⟩

/-- Witness for C8 at a concrete minimal document with one scheduled
query. -/
theorem minimal_document_defaults_witness :
    (minimalInput exMinDb [exMinQuery]).deser.validate = .ok () ∧
    (minimalInput exMinDb [exMinQuery]).deser.execution.mode = "sequential" ∧
    (minimalInput exMinDb [exMinQuery]).deser.global_settings.logging.level = "info" := by
  have h := minimal_document_defaults exMinDb [exMinQuery] rfl rfl rfl ?_
  · exact ⟨h.1, h.2.1, h.2.2.1⟩
  · intro q hm
    rw [List.mem_singleton] at hm
    subst hm
    refine ⟨rfl, rfl, rfl, rfl, ?_⟩
    intro cr hcr
    cases hcr
    left
    rfl

end Yetii
